import Mathlib

/-!
Shallow embedding of the copyous clipboard manager core
(`ClipboardManager` in `src/lib/misc/clipboard.ts`): content acquisition,
fingerprinting, deduplication, classification, outbound delivery and the
paste keystroke timer. External collaborators (GLib checksums, the URI
validator, `Intl.Segmenter`, the color parser, highlight.js, Gio file I/O,
the history store) are modelled as explicit function parameters bundled in
an environment record, mirroring exactly how the source consumes them.

String operations of the JavaScript runtime (`trim`, `startsWith`,
`split('\n')`, `slice`, `.length`, `substring`, `join`) are modelled by
executable functions on the underlying character list.
-/

namespace Copyous

/-- JavaScript-style whitespace test used by `String.prototype.trim`. -/
def jsWhitespace (c : Char) : Bool := c.isWhitespace

/-- Model of `String.prototype.trim`: drop whitespace from both ends. -/
def jsTrim (s : String) : String :=
  ⟨((s.data.dropWhile jsWhitespace).reverse.dropWhile jsWhitespace).reverse⟩

/-- Model of `String.prototype.startsWith`. -/
def jsStartsWith (s p : String) : Bool := p.data.isPrefixOf s.data

/-- Model of `String.prototype.slice(0, n)` and of `substring`-style prefix
taking (JS indexes UTF-16 units; we index characters). -/
def jsTake (s : String) (n : Nat) : String := ⟨s.data.take n⟩

/-- Model of `String.prototype.substring(n)`: drop the first `n` units. -/
def jsDrop (s : String) (n : Nat) : String := ⟨s.data.drop n⟩

/-- Model of the JS `String.prototype.length`. -/
def jsLength (s : String) : Nat := s.data.length

/-- Splitting a character list at every occurrence of a separator char,
keeping empty pieces, as JS `split` does. -/
def splitOnChar (c : Char) : List Char → List (List Char)
  | [] => [[]]
  | x :: xs =>
    if x = c then [] :: splitOnChar c xs
    else
      match splitOnChar c xs with
      | [] => [[x]]
      | y :: ys => (x :: y) :: ys

/-- Model of `String.prototype.split('\n')`. -/
def jsSplitNl (s : String) : List String :=
  (splitOnChar (Char.ofNat 10) s.data).map (fun l => ⟨l⟩)

/-- Joining character lists with a separator list. -/
def joinWith (sep : List Char) : List (List Char) → List Char
  | [] => []
  | [x] => x
  | x :: xs => x ++ sep ++ joinWith sep xs

/-- Model of `Array.prototype.join(sep)` on strings. -/
def jsJoin (sep : String) (l : List String) : String :=
  ⟨joinWith sep.data (l.map String.data)⟩

/-- Model of `Math.max` on rationals (the scores involved are never NaN). -/
def jsMax (a b : ℚ) : ℚ := if a ≤ b then b else a

/-- Semantic item types of classified entries (`ItemType` in
`src/lib/common/constants.ts`, as used by `convertContent`). -/
inductive ItemType
  | Text
  | Code
  | Link
  | Character
  | Color
  | Image
  | File
  | Files
deriving DecidableEq, Repr

/-- Content kinds of a typed clipboard payload (`ContentType`). -/
inductive ContentType
  | Text
  | Image
  | File
deriving DecidableEq, Repr

/-- Modelled from the spec: the file operation tag carried by file-list
payloads (`FileOperation` lives in `src/lib/misc/db.ts`, which is not part
of the provided sources); the spec describes the literal markers "copy" and
"cut" observed as the first line of a file-list payload. -/
inductive FileOperation
  | Copy
  | Cut
deriving DecidableEq, Repr

/-- Modelled from the spec: the literal marker string of an operation tag. -/
def FileOperation.marker : FileOperation → String
  | .Copy => "copy"
  | .Cut => "cut"

/-- The `MimeTypes.Text` preference list of `clipboard.ts`. -/
def textMimeTypes : List String :=
  ["text/plain", "text/plain;charset=utf-8", "STRING", "UTF8_STRING"]

/-- The `MimeTypes.Image` preference list of `clipboard.ts`. -/
def imageMimeTypes : List String :=
  ["image/png", "image/jxl", "image/webp", "image/avif", "image/jpeg"]

/-- The `MimeTypes.File` preference list of `clipboard.ts`. -/
def fileMimeTypes : List String :=
  ["x-special-gnome-copied-files", "text/uri-list"]

/-- The `MimeTypes.Sensitive` list of `clipboard.ts`. -/
def sensitiveMimeTypes : List String :=
  ["x-kde-passwordManagerHint"]

/-- The tagged union `ClipboardContent` of `clipboard.ts`: a typed clipboard
payload. Image bytes are modelled as a list of byte values. -/
inductive ClipboardContent
  | text (text : String)
  | image (mimetype : String) (data : List Nat) (checksum : String)
  | file (paths : List String) (operation : FileOperation)
deriving DecidableEq, Repr

/-- The `type` discriminant of a payload (`content.type` in the source). -/
def ClipboardContent.ctype : ClipboardContent → ContentType
  | .text _ => .Text
  | .image _ _ _ => .Image
  | .file _ _ => .File

/-- Metadata attached to a classified entry (`Metadata` of `db.ts` as
produced by `convertContent`): a detected language, or a file operation. -/
inductive Metadata
  | language (id : String) (name : String)
  | operation (op : FileOperation)
deriving DecidableEq, Repr

/-- Result of `hljs.highlightAuto`: the detected language (possibly absent)
and the raw relevance score, modelled as a rational. -/
structure HighlightResult where
  language : Option String
  relevance : ℚ

/-- The loaded highlight.js engine as consumed by `convertContent`:
`highlightAuto` plus `getLanguage(id)?.name` (absent when the language is
unknown or carries no name). -/
structure Hljs where
  highlightAuto : String → HighlightResult
  getLanguageName : String → Option String

/-- Settings values read by the manager, polled at the moment of use. -/
structure Settings where
  syncPrimary : Bool
  pasteOnCopy : Bool
  updateDateOnCopy : Bool
  incognito : Bool
  wmclassExclusions : List String
  maxCharacters : Int
deriving Repr

/-- External collaborators of the manager, modelled as explicit functions:
GLib checksums (`none` = the digest primitive failed, i.e. returned null),
`decodeURI`, UTF-8 transcoding, `GLib.uri_is_valid` (false also stands for
a thrown-and-caught malformed-URI error), the `Intl.Segmenter` grapheme
cluster count, `Color.parse` truthiness, the optional highlight.js engine,
image persistence (`none` = I/O failure; `some uri` = the stored file's
URI), `Gio` image loading and MIME guessing for replay, and the history
store's `insert` outcome (whether a non-null entry came back). -/
structure Env where
  md5String : String → Option String
  md5Bytes : List Nat → Option String
  decodeURI : String → String
  decodeUtf8 : List Nat → String
  encodeUtf8 : String → List Nat
  uriIsValid : String → Bool
  graphemeCount : String → Nat
  colorParse : String → Bool
  hljs : Option Hljs
  persistImage : String → List Nat → Option String
  loadImage : String → Option (List Nat)
  guessMime : String → List Nat → Option String
  insertEntry : ItemType → String → Option Metadata → Bool

/-- The function `contentChecksum` of `clipboard.ts`: MD5 of the text, the
precomputed image checksum, or MD5 of the newline-joined list of the paths
with `decodeURI` applied and the first `'file://'.length = 7` units cut off
by `substring`. -/
def contentChecksum (env : Env) : ClipboardContent → Option String
  | .text t => env.md5String t
  | .image _ _ checksum => some checksum
  | .file paths _ =>
      env.md5String (jsJoin "\n" (paths.map (fun f => jsDrop (env.decodeURI f) 7)))

/-- Spec-level scheme stripping: remove a leading "file://" when present
(stated by the spec as "scheme-stripped"); used to compare the source's
unconditional `substring(7)` against the spec's wording. -/
def stripFileScheme (s : String) : String :=
  if jsStartsWith s "file://" then jsDrop s 7 else s

/-- Spec-level digest input for a file list: the newline-joined,
percent-decoded, scheme-stripped path list. -/
def specFileDigestInput (env : Env) (paths : List String) : String :=
  jsJoin "\n" (paths.map (fun f => stripFileScheme (env.decodeURI f)))

/-- The link heuristic of `convertContent`: trimmed text starts with "http"
and `GLib.uri_is_valid` accepts it (a thrown error counts as rejection, the
source catches it and falls through). -/
def linkCheck (env : Env) (trimmed : String) : Bool :=
  jsStartsWith trimmed "http" && env.uriIsValid trimmed

/-- The character heuristic of `convertContent`: the segmenter iterator is
advanced `max-characters` times and must then be exhausted, i.e. the number
of grapheme clusters is at most the setting (clamped at zero below). -/
def charCheck (env : Env) (settings : Settings) (trimmed : String) : Bool :=
  env.graphemeCount trimmed ≤ settings.maxCharacters.toNat

/-- The code heuristic of `convertContent` on the first 10000 characters of
the trimmed text: highlight.js must be loaded, report a (truthy) language,
and the raw relevance divided by `Math.max(1, slice.length / 100)` must be
at least 3. -/
def codeCheck (env : Env) (trimmed : String) : Bool :=
  match env.hljs with
  | none => false
  | some h =>
    let slice := jsTake trimmed 10000
    let n : ℚ := jsMax 1 ((jsLength slice : ℚ) / 100)
    match (h.highlightAuto slice).language with
    | none => false
    | some id => !id.isEmpty && decide ((h.highlightAuto slice).relevance / n ≥ 3)

/-- The metadata produced when the code heuristic fires: the detected id
and the display name `id.length < name.length - 3 ? id.charAt(0) +
id.slice(1) : name`, where `name` is `getLanguage(id)?.name ?? id`. -/
def codeMetadata (h : Hljs) (id : String) : Metadata :=
  let name := (h.getLanguageName id).getD id
  .language id
    (if (jsLength id : Int) < (jsLength name : Int) - 3
     then jsTake id 1 ++ jsDrop id 1
     else name)

/-- The function `convertContent` of `clipboard.ts`: multi-stage
classification of a text payload (link, character, color, code, text, in
that order, first match wins), content-addressed persistence for an image
payload, and near-direct mapping for a file payload. -/
def convertContent (env : Env) (settings : Settings) :
    ClipboardContent → Option (ItemType × String × Option Metadata)
  | .text text =>
    let trimmed := jsTrim text
    if linkCheck env trimmed then
      some (.Link, text, none)
    else if charCheck env settings trimmed then
      some (.Character, text, none)
    else if env.colorParse trimmed then
      some (.Color, text, none)
    else if codeCheck env trimmed then
      match env.hljs with
      | some h =>
        match (h.highlightAuto (jsTake trimmed 10000)).language with
        | some id => some (.Code, text, some (codeMetadata h id))
        | none => some (.Text, text, none)
      | none => some (.Text, text, none)
    else
      some (.Text, text, none)
  | .image _ data checksum =>
    match env.persistImage checksum data with
    | some uri => some (.Image, uri, none)
    | none => none
  | .file paths op =>
    if paths.length = 1 then
      some (.File, paths.headD "", some (.operation op))
    else
      some (.Files, jsJoin "\n" paths, some (.operation op))

/-- The system clipboard backend as visible to `getContent`: the advertised
MIME types, the byte payload handed back for a requested MIME type, and the
text handed back by `get_text` (`none` = null). -/
structure Backend where
  mimeTypes : List String
  getBytes : String → List Nat
  getText : Option String

/-- The function `getContent` of `clipboard.ts`: priority-ordered content
acquisition. Sensitive wins first (null), then the first advertised image
MIME type in preference order (empty bytes or a failed/empty checksum give
null), then the first advertised file-list MIME type (decoded, trimmed,
split into trimmed non-empty lines, a leading "copy"/"cut" line becoming
the operation tag), then text (null/empty/whitespace-only gives null),
otherwise null. -/
def getContent (env : Env) (cb : Backend) : Option ClipboardContent :=
  if sensitiveMimeTypes.any (fun v => cb.mimeTypes.contains v) then
    none
  else
    match imageMimeTypes.find? (fun v => cb.mimeTypes.contains v) with
    | some imageMimeType =>
      let bytes := cb.getBytes imageMimeType
      if bytes.length > 0 then
        match env.md5Bytes bytes with
        | some checksum =>
          if checksum.isEmpty then none
          else some (.image imageMimeType bytes checksum)
        | none => none
      else none
    | none =>
      match fileMimeTypes.find? (fun v => cb.mimeTypes.contains v) with
      | some fileMimeType =>
        let text := jsTrim (env.decodeUtf8 (cb.getBytes fileMimeType))
        if text.isEmpty then none
        else
          let files := ((jsSplitNl text).map jsTrim).filter (fun f => jsLength f ≠ 0)
          if files.headD "" = FileOperation.Copy.marker then
            some (.file (files.drop 1) .Copy)
          else if files.headD "" = FileOperation.Cut.marker then
            some (.file (files.drop 1) .Cut)
          else
            some (.file files .Copy)
      | none =>
        match textMimeTypes.find? (fun v => cb.mimeTypes.contains v) with
        | some _ =>
          match cb.getText with
          | some t => if !t.isEmpty && !(jsTrim t).isEmpty then some (.text t) else none
          | none => none
        | none => none

/-- The `shouldSave` policy check of `clipboard.ts`: veto when the focused
window's class is in the exclusion list, otherwise save unless incognito.
The focused window is modelled by its optional wm class. -/
def shouldSave (settings : Settings) (focusWindow : Option String) : Bool :=
  match focusWindow with
  | some wmClass =>
    if settings.wmclassExclusions.contains wmClass then false
    else !settings.incognito
  | none => !settings.incognito

/-- The duplicate check of `ownerChanged` against the `prevClipboard` slot:
same kind with same checksum, or the special File-then-Text case with the
same checksum. -/
def isDuplicate (prev : Option (ContentType × String)) (t : ContentType)
    (checksum : String) : Bool :=
  match prev with
  | none => false
  | some (pt, prevChecksum) =>
    (pt = t && prevChecksum = checksum)
      || (pt = ContentType.File && t = ContentType.Text && prevChecksum = checksum)

/-- Selection kinds reported with an owner-changed notification. -/
inductive SelectionType
  | clipboard
  | primarySelection
  | dragAndDrop
deriving DecidableEq, Repr

/-- Observable outcome of one `ownerChanged` invocation: the new
`prevClipboard` slot, the arguments of the history-store `insert` call when
one was made, and whether the `clipboard` signal was emitted. -/
structure CaptureResult where
  prev : Option (ContentType × String)
  insertCall : Option (ItemType × String × Option Metadata)
  emitted : Bool
deriving DecidableEq, Repr

/-- The handler `ownerChanged` of `clipboard.ts`: ignore non-clipboard
selections, acquire content, compute the checksum (a null or empty one
aborts), suppress duplicates against `prevClipboard`, overwrite
`prevClipboard`, then check the save policy, classify, insert into the
history store and emit the `clipboard` signal when an entry came back. -/
def ownerChanged (env : Env) (settings : Settings) (cb : Backend)
    (focusWindow : Option String) (prev : Option (ContentType × String))
    (selectionType : SelectionType) : CaptureResult :=
  if selectionType ≠ .clipboard then ⟨prev, none, false⟩
  else
    match getContent env cb with
    | none => ⟨prev, none, false⟩
    | some content =>
      match contentChecksum env content with
      | none => ⟨prev, none, false⟩
      | some checksum =>
        if checksum.isEmpty then ⟨prev, none, false⟩
        else if isDuplicate prev content.ctype checksum then ⟨prev, none, false⟩
        else
          let newPrev := some (content.ctype, checksum)
          if !shouldSave settings focusWindow then ⟨newPrev, none, false⟩
          else
            match convertContent env settings content with
            | none => ⟨newPrev, none, false⟩
            | some (type, text, metadata) =>
              ⟨newPrev, some (type, text, metadata), env.insertEntry type text metadata⟩

/-- Clipboard-setting side effects of outbound delivery. The boolean of
`setText` distinguishes the primary selection mirror from the clipboard. -/
inductive ClipEffect
  | setText (primary : Bool) (text : String)
  | setContent (mimetype : String) (data : List Nat)
deriving DecidableEq, Repr

/-- Mutable state of the manager relevant to delivery: the `prevClipboard`
dedup slot, the `pasteSignalId` field (negative = no pending paste), the
ids of currently scheduled GLib timeout sources, and the next fresh source
id handed out by the modelled GLib. -/
structure ManagerState where
  prev : Option (ContentType × String)
  pasteSignalId : Int
  timers : List Nat
  nextTimerId : Nat
deriving DecidableEq, Repr

/-- The method `copyContent` of `clipboard.ts`: compute the checksum (a
null or empty checksum aborts before anything is written), record the new
(kind, checksum) pair in `prevClipboard`, then set the system clipboard:
text (optionally mirrored to the primary selection), image bytes under the
payload's MIME type, or a file list serialized as the copy marker plus the
newline-joined paths under the first file MIME type. -/
def copyContent (env : Env) (settings : Settings)
    (prev : Option (ContentType × String)) (c : ClipboardContent) :
    Option (ContentType × String) × List ClipEffect :=
  match contentChecksum env c with
  | none => (prev, [])
  | some checksum =>
    if checksum.isEmpty then (prev, [])
    else
      let newPrev := some (c.ctype, checksum)
      match c with
      | .text t =>
        (newPrev,
          ClipEffect.setText false t ::
            (if settings.syncPrimary then [ClipEffect.setText true t] else []))
      | .image mimetype data _ =>
        (newPrev, [ClipEffect.setContent mimetype data])
      | .file paths _ =>
        let s := FileOperation.Copy.marker ++ "\n" ++ jsJoin "\n" paths
        (newPrev, [ClipEffect.setContent (fileMimeTypes.headD "") (env.encodeUtf8 s)])

/-- The method `pasteContent` of `clipboard.ts`: deliver via `copyContent`,
then, when `paste-on-copy` is enabled, cancel any still-pending paste
timeout (`GLib.source_remove` on `pasteSignalId`) and schedule a fresh
one-shot timeout whose id is recorded in `pasteSignalId`. -/
def pasteContent (env : Env) (settings : Settings) (st : ManagerState)
    (c : ClipboardContent) : ManagerState × List ClipEffect :=
  let r := copyContent env settings st.prev c
  let st1 : ManagerState := { st with prev := r.1 }
  if !settings.pasteOnCopy then (st1, r.2)
  else
    let timers :=
      if st1.pasteSignalId ≥ 0 then
        st1.timers.filter (fun i => i ≠ st1.pasteSignalId.toNat)
      else st1.timers
    let newId := st1.nextTimerId
    ({ st1 with
        pasteSignalId := (newId : Int)
        timers := timers ++ [newId]
        nextTimerId := newId + 1 }, r.2)

/-- Keys used by the paste keystroke sequence. -/
inductive Key
  | controlL
  | shiftL
  | vUpper
  | vLower
deriving DecidableEq, Repr

/-- Synthetic input events of the keystroke injector. -/
inductive KeyEvent
  | press (k : Key)
  | release (k : Key)
deriving DecidableEq, Repr

/-- The keystroke sequence injected by the paste timeout callback:
Ctrl+Shift+V (nested press/release) in a terminal input context, Ctrl+v
otherwise. -/
def pasteKeySequence (terminal : Bool) : List KeyEvent :=
  if terminal then
    [.press .controlL, .press .shiftL, .press .vUpper,
     .release .vUpper, .release .shiftL, .release .controlL]
  else
    [.press .controlL, .press .vLower, .release .vLower, .release .controlL]

/-- Firing one scheduled GLib source: if the id is still scheduled, the
paste callback runs (injecting the keystroke sequence and clearing
`pasteSignalId`); a removed source never fires. -/
def fireTimer (st : ManagerState) (terminal : Bool) (id : Nat) :
    ManagerState × List KeyEvent :=
  if st.timers.contains id then
    ({ st with timers := st.timers.filter (fun i => i ≠ id), pasteSignalId := -1 },
      pasteKeySequence terminal)
  else (st, [])

/-- Firing a list of source ids in order, collecting all injected key
events. -/
def fireTimers (st : ManagerState) (terminal : Bool) :
    List Nat → ManagerState × List KeyEvent
  | [] => (st, [])
  | id :: rest =>
    let r := fireTimer st terminal id
    let r2 := fireTimers r.1 terminal rest
    (r2.1, r.2 ++ r2.2)

/-- A stored history entry as consumed by `pasteEntry`: its semantic type
and canonical content string. -/
structure HistEntry where
  type : ItemType
  content : String
deriving DecidableEq, Repr

/-- The method `pasteEntry` of `clipboard.ts`: map a stored entry back to a
typed payload and paste it. Text-like types paste the content as text; an
image is loaded by URI and its MIME type re-guessed from path and contents,
a load failure or a null/empty MIME type doing nothing, and a successful
load pasting an image payload whose checksum is the empty string; file
entries split the stored newline-joined paths with operation Copy. The
`update-date-on-copy` timestamp side effect is orthogonal to delivery and
not modelled. -/
def pasteEntry (env : Env) (settings : Settings) (st : ManagerState)
    (entry : HistEntry) : ManagerState × List ClipEffect :=
  match entry.type with
  | .Text | .Code | .Link | .Character | .Color =>
    pasteContent env settings st (.text entry.content)
  | .Image =>
    match env.loadImage entry.content with
    | none => (st, [])
    | some contents =>
      match env.guessMime entry.content contents with
      | none => (st, [])
      | some mimetype =>
        if mimetype.isEmpty then (st, [])
        else pasteContent env settings st (.image mimetype contents "")
  | .File | .Files =>
    pasteContent env settings st (.file (jsSplitNl entry.content) .Copy)

/-- Validity of the paste-timer bookkeeping: either no paste is pending
(negative `pasteSignalId`, no scheduled source) or exactly the recorded
source is scheduled. -/
def timersOK (st : ManagerState) : Prop :=
  (st.pasteSignalId < 0 ∧ st.timers = []) ∨
  (0 ≤ st.pasteSignalId ∧ st.timers = [st.pasteSignalId.toNat])

/-- Baseline settings used by the concrete witnesses below. -/
def wSettings : Settings :=
  { syncPrimary := false, pasteOnCopy := false, updateDateOnCopy := false,
    incognito := false, wmclassExclusions := [], maxCharacters := 5 }

/-- Baseline environment used by the concrete witnesses: simple executable
stand-ins for the external digest, decoding, counting, color and store
primitives (the theorems themselves quantify over arbitrary
environments). -/
def wEnv : Env :=
  { md5String := fun s => some s
    md5Bytes := fun _ => some "imgdigest"
    decodeURI := fun s => s
    decodeUtf8 := fun _ => ""
    encodeUtf8 := fun _ => []
    uriIsValid := fun s => jsStartsWith s "http://"
    graphemeCount := fun s => jsLength s
    colorParse := fun _ => false
    hljs := none
    persistImage := fun ck _ => some ("file:///images/" ++ ck)
    loadImage := fun _ => none
    guessMime := fun _ _ => none
    insertEntry := fun _ _ _ => true }

/-- A backend advertising plain text "hello". -/
def wBackendText : Backend :=
  { mimeTypes := ["text/plain"], getBytes := fun _ => [], getText := some "hello" }

/-- A backend advertising a sensitive hint together with an image type. -/
def wBackendSensitive : Backend :=
  { mimeTypes := ["x-kde-passwordManagerHint", "image/png"],
    getBytes := fun _ => [7], getText := none }

/-- Baseline settings with incognito mode enabled. -/
def incognitoSettings : Settings := { wSettings with incognito := true }

/-- Baseline settings with paste-on-copy enabled. -/
def pasteSettings : Settings := { wSettings with pasteOnCopy := true }

/-- Baseline settings with a character-item threshold of 20 clusters. -/
def bigCharSettings : Settings := { wSettings with maxCharacters := 20 }

/-- A detector reporting language id "ab" named "abcdef" with high
relevance: the id is more than 3 characters shorter than the name. -/
def detectorAb : Hljs :=
  { highlightAuto := fun _ => { language := some "ab", relevance := 100 }
    getLanguageName := fun _ => some "abcdef" }

/-- Baseline environment with the "ab" detector loaded. -/
def envAb : Env := { wEnv with hljs := some detectorAb }

/-- A detector reporting language id "cpp" named "C++" with high
relevance: the id is not shorter than the name minus 3. -/
def detectorCpp : Hljs :=
  { highlightAuto := fun _ => { language := some "cpp", relevance := 50 }
    getLanguageName := fun _ => some "C++" }

/-- Baseline environment with the "cpp" detector loaded. -/
def envCpp : Env := { wEnv with hljs := some detectorCpp }

/-- A detector reporting language id "js" with raw relevance 2. -/
def detectorJs : Hljs :=
  { highlightAuto := fun _ => { language := some "js", relevance := 2 }
    getLanguageName := fun _ => some "JavaScript" }

/-- Baseline environment with the low-relevance "js" detector loaded. -/
def envJs : Env := { wEnv with hljs := some detectorJs }

/-- A 50-character code-like sample. -/
def sample50 : String := "const alpha = beta + gamma * delta - epsilon + 12;"

/-- Environment whose segmenter counts the two-codepoint emoji "👍🏽" as a
single grapheme cluster. -/
def emojiEnv : Env :=
  { wEnv with graphemeCount := fun s => if s = "👍🏽" then 1 else jsLength s }

/-- Environment for replaying a stored image entry: its bytes load
successfully and its MIME type is determinable. -/
def replayEnv : Env :=
  { wEnv with
      loadImage := fun u => if u = "file:///images/abc" then some [1, 2, 3] else none
      guessMime := fun _ _ => some "image/png" }

/-- Manager state with no pending paste and no scheduled source. -/
def idleState : ManagerState :=
  { prev := none, pasteSignalId := -1, timers := [], nextTimerId := 0 }

lemma jsTake_one_append_jsDrop_one (s : String) : jsTake s 1 ++ jsDrop s 1 = s := by
  cases s with
  | mk d =>
    apply String.ext
    simp only [jsTake, jsDrop, String.data_append]
    exact List.take_append_drop 1 d

lemma codeCheck_eq_true {env : Env} {h : Hljs} {t id : String}
    (hh : env.hljs = some h)
    (hlang : (h.highlightAuto (jsTake t 10000)).language = some id)
    (hid : id.isEmpty = false)
    (hrel : (h.highlightAuto (jsTake t 10000)).relevance /
      jsMax 1 ((jsLength (jsTake t 10000) : ℚ) / 100) ≥ 3) :
    codeCheck env t = true := by
  simp [codeCheck, hh, hlang, hid, hrel]

lemma codeCheck_eq_false_of_low {env : Env} {h : Hljs} {t id : String}
    (hh : env.hljs = some h)
    (hlang : (h.highlightAuto (jsTake t 10000)).language = some id)
    (hrel : ¬ ((h.highlightAuto (jsTake t 10000)).relevance /
      jsMax 1 ((jsLength (jsTake t 10000) : ℚ) / 100) ≥ 3)) :
    codeCheck env t = false := by
  simp [codeCheck, hh, hlang, hrel]

lemma codeCheck_spec (env : Env) (t : String) :
    codeCheck env t = true ↔
      ∃ h id, env.hljs = some h ∧
        (h.highlightAuto (jsTake t 10000)).language = some id ∧
        id.isEmpty = false ∧
        (h.highlightAuto (jsTake t 10000)).relevance /
          jsMax 1 ((jsLength (jsTake t 10000) : ℚ) / 100) ≥ 3 := by
  constructor
  · intro hc
    unfold codeCheck at hc
    cases hh : env.hljs with
    | none => rw [hh] at hc; cases hc
    | some h =>
      rw [hh] at hc
      cases hlang : (h.highlightAuto (jsTake t 10000)).language with
      | none => simp only [hlang] at hc; cases hc
      | some id =>
        simp only [hlang, Bool.and_eq_true, Bool.not_eq_true', decide_eq_true_eq] at hc
        exact ⟨h, id, rfl, hlang, hc.1, hc.2⟩
  · rintro ⟨h, id, hh, hlang, hid, hrel⟩
    exact codeCheck_eq_true hh hlang hid hrel

lemma charCheck_eq_true {env : Env} {settings : Settings} {t : String}
    (h : env.graphemeCount t ≤ settings.maxCharacters.toNat) :
    charCheck env settings t = true := by
  simp [charCheck, h]

/-- C1: an ownership-change capture whose payload has the same content
kind and the same fingerprint as the tracker's last-known (kind,
fingerprint) pair is suppressed — the dedup slot is unchanged, no
history-store insert happens and no notification signal is emitted — and
the same holds when the last-known kind is FileList and the new payload is
Text with an identical fingerprint. -/
theorem ownerChanged_suppresses_duplicate (env : Env) (settings : Settings)
    (cb : Backend) (fw : Option String) (content : ClipboardContent)
    (k : ContentType) (f : String)
    (hget : getContent env cb = some content)
    (hck : contentChecksum env content = some f)
    (hmatch : k = content.ctype ∨
      (k = ContentType.File ∧ content.ctype = ContentType.Text)) :
    ownerChanged env settings cb fw (some (k, f)) .clipboard =
      ⟨some (k, f), none, false⟩ := by
  simp only [ownerChanged, hget, hck]
  rw [if_neg (by simp)]
  by_cases hf : f.isEmpty = true
  · rw [if_pos hf]
  · have hdup : isDuplicate (some (k, f)) content.ctype f = true := by
      unfold isDuplicate
      rcases hmatch with h | ⟨h1, h2⟩
      · subst h; simp
      · rw [h1, h2]; simp
    rw [if_neg hf, if_pos hdup]

/-- Witness for C1: a captured text "hello" whose (kind, checksum) pair
equals the tracker slot is suppressed. -/
theorem ownerChanged_suppresses_duplicate_witness :
    ownerChanged wEnv wSettings wBackendText none
        (some (ContentType.Text, "hello")) .clipboard =
      ⟨some (ContentType.Text, "hello"), none, false⟩ :=
  ownerChanged_suppresses_duplicate wEnv wSettings wBackendText none
    (ClipboardContent.text "hello") ContentType.Text "hello"
    (by decide) rfl (Or.inl rfl)

/-- C10: a non-suppressed capture overwrites the dedup slot before the
save-policy check runs, so content captured while saving is vetoed still
updates the dedup state; capturing the same content again, under any
policy, is then suppressed with no insert and no emission. -/
theorem dedup_before_policy (env : Env) (settings1 settings2 : Settings)
    (cb : Backend) (fw1 fw2 : Option String)
    (prev : Option (ContentType × String)) (content : ClipboardContent)
    (f : String)
    (hget : getContent env cb = some content)
    (hck : contentChecksum env content = some f)
    (hfe : f.isEmpty = false)
    (hdup : isDuplicate prev content.ctype f = false)
    (hveto : shouldSave settings1 fw1 = false) :
    ownerChanged env settings1 cb fw1 prev .clipboard =
      ⟨some (content.ctype, f), none, false⟩ ∧
    ownerChanged env settings2 cb fw2 (some (content.ctype, f)) .clipboard =
      ⟨some (content.ctype, f), none, false⟩ := by
  constructor
  · simp only [ownerChanged, hget, hck]
    rw [if_neg (by simp), if_neg (by simp [hfe]), if_neg (by simp [hdup]),
      if_pos (by simp [hveto])]
  · simp only [ownerChanged, hget, hck]
    have hdup2 : isDuplicate (some (content.ctype, f)) content.ctype f = true := by
      unfold isDuplicate; simp
    rw [if_neg (by simp), if_neg (by simp [hfe]), if_pos hdup2]

/-- Witness for C10: "hello" captured in incognito mode is not inserted
yet updates the dedup slot, and the same capture after incognito is
disabled is suppressed. -/
theorem dedup_before_policy_witness :
    ownerChanged wEnv incognitoSettings wBackendText none none .clipboard =
      ⟨some (ContentType.Text, "hello"), none, false⟩ ∧
    ownerChanged wEnv wSettings wBackendText none
        (some (ContentType.Text, "hello")) .clipboard =
      ⟨some (ContentType.Text, "hello"), none, false⟩ :=
  dedup_before_policy wEnv incognitoSettings wSettings wBackendText none none
    none (ClipboardContent.text "hello") "hello"
    (by decide) rfl (by decide) (by decide) (by decide)

/-- C3 (code bug): replaying a stored Image entry whose bytes load and
whose MIME type is determinable performs no clipboard set at all: the
empty replay checksum is falsy in `if (!checksum) return`, so
`copyContent` aborts before `set_content`, while the spec treats the empty
fingerprint as "skip the dedup check" and expects delivery. -/
theorem image_replay_never_delivered :
    replayEnv.loadImage "file:///images/abc" = some [1, 2, 3] ∧
    replayEnv.guessMime "file:///images/abc" [1, 2, 3] = some "image/png" ∧
    (pasteEntry replayEnv pasteSettings idleState
        { type := ItemType.Image, content := "file:///images/abc" }).2 = [] :=
  ⟨by decide, rfl, by decide⟩

/-- C7: the fingerprint of a file-list payload ignores the operation tag
(a Cut and a Copy of the same paths collide), and when every
percent-decoded path carries the file:// scheme it is the digest of the
newline-joined, percent-decoded, scheme-stripped path list. -/
theorem file_checksum_ignores_operation (env : Env) (paths : List String)
    (op1 op2 : FileOperation) :
    contentChecksum env (.file paths op1) = contentChecksum env (.file paths op2) ∧
    ((∀ p ∈ paths, jsStartsWith (env.decodeURI p) "file://" = true) →
      contentChecksum env (.file paths op1) =
        env.md5String (specFileDigestInput env paths)) := by
  constructor
  · rfl
  · intro h
    have hmap : ∀ l : List String,
        (∀ p ∈ l, jsStartsWith (env.decodeURI p) "file://" = true) →
        l.map (fun f => jsDrop (env.decodeURI f) 7) =
          l.map (fun f => stripFileScheme (env.decodeURI f)) := by
      intro l
      induction l with
      | nil => intro _; rfl
      | cons p ps ih =>
        intro hl
        simp only [List.map_cons]
        rw [show stripFileScheme (env.decodeURI p) = jsDrop (env.decodeURI p) 7 by
            unfold stripFileScheme
            rw [if_pos (hl p (List.mem_cons_self p ps))],
          ih (fun q hq => hl q (List.mem_cons_of_mem p hq))]
    simp only [contentChecksum, specFileDigestInput]
    rw [hmap paths h]

/-- Witness for C7: a single file:// path digested identically for Cut and
for the spec-level digest input. -/
theorem file_checksum_ignores_operation_witness :
    contentChecksum wEnv (.file ["file:///a/b"] .Cut) =
      wEnv.md5String (specFileDigestInput wEnv ["file:///a/b"]) :=
  (file_checksum_ignores_operation wEnv ["file:///a/b"] .Cut .Copy).2 (by decide)

/-- C5 counterexample: "http://aa.bb" has 12 grapheme clusters, not more
than the configured maximum of 20, yet classification yields Link, not
Character — the link heuristic runs before the character heuristic. -/
theorem character_claim_false :
    wEnv.graphemeCount (jsTrim "http://aa.bb") ≤ bigCharSettings.maxCharacters.toNat ∧
    convertContent wEnv bigCharSettings (.text "http://aa.bb") =
      some (.Link, "http://aa.bb", none) := by
  decide

/-- C5 amended: provided the link heuristic does not fire, every text
payload whose trimmed content has at most the configured maximum number of
grapheme clusters (as counted by the segmenter) is classified Character —
not Text, Link, Color or Code. -/
theorem character_below_threshold (env : Env) (settings : Settings)
    (text : String)
    (hlink : linkCheck env (jsTrim text) = false)
    (hcount : env.graphemeCount (jsTrim text) ≤ settings.maxCharacters.toNat) :
    convertContent env settings (.text text) = some (.Character, text, none) := by
  simp only [convertContent]
  rw [if_neg (by simp [hlink]), if_pos (charCheck_eq_true hcount)]

/-- Witness for C5: the two-codepoint emoji "👍🏽", counted as one grapheme
cluster by the segmenter, is classified Character. -/
theorem character_below_threshold_witness :
    convertContent emojiEnv wSettings (.text "👍🏽") =
      some (.Character, "👍🏽", none) :=
  character_below_threshold emojiEnv wSettings "👍🏽" (by decide) (by decide)

/-- C2 counterexample: with detected id "ab" (length 2) and detector name
"abcdef" (length 6), the claim predicts the display name "abcdef" — the
capitalized id, of length 2, is shorter than 6 - 3 — while the code uses
the id "ab" itself (not even capitalized): the branch in the source is the
reverse of the claim. -/
theorem code_displayName_claim_false :
    convertContent envAb wSettings (.text "some source text") =
      some (.Code, "some source text", some (.language "ab" "ab")) ∧
    ("ab" : String) ≠ "abcdef" := by
  constructor
  · have ht : jsTrim "some source text" = "some source text" := by decide
    have hcode : codeCheck envAb "some source text" = true := by
      refine @codeCheck_eq_true envAb detectorAb "some source text" "ab" rfl rfl (by decide) ?_
      have hlen : jsLength (jsTake "some source text" 10000) = 16 := by decide
      rw [hlen]
      norm_num [jsMax, detectorAb]
    simp only [convertContent, ht]
    rw [if_neg (by decide), if_neg (by decide), if_neg (by decide),
      if_pos (by simp [hcode])]
    decide
  · decide

/-- C2 amended: when a text payload is classified as Code with detected
language id and resolved detector name, the display name is the id itself
— the code concatenates the first character back without capitalizing —
precisely when the id is more than 3 characters shorter than the name
(id.length < name.length - 3); otherwise the detector's name is used. -/
theorem code_displayName_rule (env : Env) (settings : Settings)
    (text : String) (h : Hljs) (id : String)
    (hh : env.hljs = some h)
    (hlang : (h.highlightAuto (jsTake (jsTrim text) 10000)).language = some id)
    (hlink : linkCheck env (jsTrim text) = false)
    (hchar : charCheck env settings (jsTrim text) = false)
    (hcolor : env.colorParse (jsTrim text) = false)
    (hcode : codeCheck env (jsTrim text) = true) :
    convertContent env settings (.text text) =
      some (.Code, text, some (.language id
        (if (jsLength id : Int) < (jsLength ((h.getLanguageName id).getD id) : Int) - 3
         then id
         else (h.getLanguageName id).getD id))) := by
  simp only [convertContent]
  rw [if_neg (by simp [hlink]), if_neg (by simp [hchar]), if_neg (by simp [hcolor]),
    if_pos (by simp [hcode])]
  simp only [hh, hlang, codeMetadata]
  by_cases hc :
      (jsLength id : Int) < (jsLength ((h.getLanguageName id).getD id) : Int) - 3
  · rw [if_pos hc, if_pos hc, jsTake_one_append_jsDrop_one]
  · rw [if_neg hc, if_neg hc]

/-- Witness for C2: with id "cpp" and name "C++" the else branch applies
and the name "C++" is displayed. -/
theorem code_displayName_rule_witness :
    convertContent envCpp wSettings (.text "some source text") =
      some (.Code, "some source text", some (.language "cpp" "C++")) := by
  have hcode : codeCheck envCpp (jsTrim "some source text") = true := by
    refine @codeCheck_eq_true envCpp detectorCpp (jsTrim "some source text") "cpp" rfl rfl (by decide) ?_
    have hlen : jsLength (jsTake (jsTrim "some source text") 10000) = 16 := by decide
    rw [hlen]
    norm_num [jsMax, detectorCpp]
  have h := code_displayName_rule envCpp wSettings "some source text"
    detectorCpp "cpp" rfl rfl (by decide) (by decide) (by decide) hcode
  rw [h]
  decide

/-- C6: with the link, character and color heuristics not firing, a text
payload is classified Code exactly when the language detector is loaded,
identifies a language on at most the first 10000 characters of the trimmed
text, and the raw relevance divided by max(1, sampleLength / 100) is at
least 3. -/
theorem code_threshold_iff (env : Env) (settings : Settings) (text : String)
    (hlink : linkCheck env (jsTrim text) = false)
    (hchar : charCheck env settings (jsTrim text) = false)
    (hcolor : env.colorParse (jsTrim text) = false) :
    (∃ md, convertContent env settings (.text text) = some (.Code, text, md)) ↔
      ∃ h id, env.hljs = some h ∧
        (h.highlightAuto (jsTake (jsTrim text) 10000)).language = some id ∧
        id.isEmpty = false ∧
        (h.highlightAuto (jsTake (jsTrim text) 10000)).relevance /
          jsMax 1 ((jsLength (jsTake (jsTrim text) 10000) : ℚ) / 100) ≥ 3 := by
  rw [← codeCheck_spec]
  simp only [convertContent]
  rw [if_neg (by simp [hlink]), if_neg (by simp [hchar]), if_neg (by simp [hcolor])]
  cases hcode : codeCheck env (jsTrim text) with
  | false =>
    rw [if_neg (by simp [hcode])]
    constructor
    · rintro ⟨md, hmd⟩
      simp at hmd
    · intro hca
      exact absurd hca (by simp [hcode])
  | true =>
    rw [if_pos (by simp [hcode])]
    rcases (codeCheck_spec env (jsTrim text)).mp hcode with ⟨h, id, hh, hlang, -, -⟩
    simp only [hh, hlang]
    exact iff_of_true ⟨some (codeMetadata h id), rfl⟩ trivial

/-- Witness for C6: the claimed equivalence at a concrete 50-character
sample with detector relevance 2, whose normalized score 2 is below 3, so
the sample is classified Text. -/
theorem code_threshold_iff_witness :
    ((∃ md, convertContent envJs wSettings (.text sample50) =
        some (.Code, sample50, md)) ↔
      ∃ h id, envJs.hljs = some h ∧
        (h.highlightAuto (jsTake (jsTrim sample50) 10000)).language = some id ∧
        id.isEmpty = false ∧
        (h.highlightAuto (jsTake (jsTrim sample50) 10000)).relevance /
          jsMax 1 ((jsLength (jsTake (jsTrim sample50) 10000) : ℚ) / 100) ≥ 3) ∧
    convertContent envJs wSettings (.text sample50) = some (.Text, sample50, none) := by
  constructor
  · exact code_threshold_iff envJs wSettings sample50 (by decide) (by decide) (by decide)
  · have hcode : codeCheck envJs (jsTrim sample50) = false := by
      refine @codeCheck_eq_false_of_low envJs detectorJs (jsTrim sample50) "js" rfl rfl ?_
      have hlen : jsLength (jsTake (jsTrim sample50) 10000) = 50 := by decide
      rw [hlen]
      norm_num [jsMax, detectorJs]
    simp only [convertContent]
    rw [if_neg (by decide), if_neg (by decide), if_neg (by decide),
      if_neg (by simp [hcode])]

/-- C4: text payloads are classified by the heuristics in the fixed order
Link, Character, Color, Code, Text with the first matching stage deciding
the semantic type (later stages are not consulted), and Image / FileList
payloads never enter the multi-stage classification, mapping to Image and
File-or-Files instead. -/
theorem convertContent_stage_order (env : Env) (settings : Settings)
    (text : String) :
    (linkCheck env (jsTrim text) = true →
      convertContent env settings (.text text) = some (.Link, text, none)) ∧
    (linkCheck env (jsTrim text) = false →
      charCheck env settings (jsTrim text) = true →
      convertContent env settings (.text text) = some (.Character, text, none)) ∧
    (linkCheck env (jsTrim text) = false →
      charCheck env settings (jsTrim text) = false →
      env.colorParse (jsTrim text) = true →
      convertContent env settings (.text text) = some (.Color, text, none)) ∧
    (linkCheck env (jsTrim text) = false →
      charCheck env settings (jsTrim text) = false →
      env.colorParse (jsTrim text) = false →
      codeCheck env (jsTrim text) = true →
      ∃ md, convertContent env settings (.text text) = some (.Code, text, some md)) ∧
    (linkCheck env (jsTrim text) = false →
      charCheck env settings (jsTrim text) = false →
      env.colorParse (jsTrim text) = false →
      codeCheck env (jsTrim text) = false →
      convertContent env settings (.text text) = some (.Text, text, none)) ∧
    (∀ mt data ck r, convertContent env settings (.image mt data ck) = some r →
      r.1 = ItemType.Image) ∧
    (∀ paths op r, convertContent env settings (.file paths op) = some r →
      r.1 = ItemType.File ∨ r.1 = ItemType.Files) := by
  refine ⟨?_, ?_, ?_, ?_, ?_, ?_, ?_⟩
  · intro h1
    simp only [convertContent]
    rw [if_pos (by simp [h1])]
  · intro h1 h2
    simp only [convertContent]
    rw [if_neg (by simp [h1]), if_pos (by simp [h2])]
  · intro h1 h2 h3
    simp only [convertContent]
    rw [if_neg (by simp [h1]), if_neg (by simp [h2]), if_pos (by simp [h3])]
  · intro h1 h2 h3 h4
    rcases (codeCheck_spec env (jsTrim text)).mp h4 with ⟨h, id, hh, hlang, -, -⟩
    refine ⟨codeMetadata h id, ?_⟩
    simp only [convertContent]
    rw [if_neg (by simp [h1]), if_neg (by simp [h2]), if_neg (by simp [h3]),
      if_pos (by simp [h4])]
    simp only [hh, hlang]
  · intro h1 h2 h3 h4
    simp only [convertContent]
    rw [if_neg (by simp [h1]), if_neg (by simp [h2]), if_neg (by simp [h3]),
      if_neg (by simp [h4])]
  · intro mt data ck r hr
    simp only [convertContent] at hr
    cases hp : env.persistImage ck data with
    | none => rw [hp] at hr; simp at hr
    | some uri =>
      rw [hp] at hr
      simp only [Option.some.injEq] at hr
      subst hr
      rfl
  · intro paths op r hr
    simp only [convertContent] at hr
    by_cases hl : paths.length = 1
    · rw [if_pos hl] at hr
      simp only [Option.some.injEq] at hr
      subst hr
      left; rfl
    · rw [if_neg hl] at hr
      simp only [Option.some.injEq] at hr
      subst hr
      right; rfl

/-- Witness for C4: the first stage fires on "http://aa.bb" and yields
Link. -/
theorem convertContent_stage_order_witness :
    convertContent wEnv wSettings (.text "http://aa.bb") =
      some (.Link, "http://aa.bb", none) :=
  (convertContent_stage_order wEnv wSettings "http://aa.bb").1 (by decide)

/-- C8: content acquisition decides in the fixed priority order sensitive,
image, file-list, text with first match winning: any advertised sensitive
MIME type gives null and nothing is captured; otherwise, when an image
MIME type is advertised, bytes are requested for the first advertised type
in the preference order png, jxl, webp, avif, jpeg and an empty payload
gives null; and when no recognized MIME type is advertised the result is
null. -/
theorem getContent_priority (env : Env) (cb : Backend) :
    (sensitiveMimeTypes.any (fun v => cb.mimeTypes.contains v) = true →
      getContent env cb = none) ∧
    (sensitiveMimeTypes.any (fun v => cb.mimeTypes.contains v) = false →
      ∀ m, imageMimeTypes.find? (fun v => cb.mimeTypes.contains v) = some m →
        (cb.getBytes m = [] → getContent env cb = none) ∧
        (cb.getBytes m ≠ [] →
          getContent env cb =
            (env.md5Bytes (cb.getBytes m)).bind (fun ck =>
              if ck.isEmpty then none
              else some (.image m (cb.getBytes m) ck)))) ∧
    ((∀ t ∈ cb.mimeTypes, t ∉ sensitiveMimeTypes ∧ t ∉ imageMimeTypes ∧
        t ∉ fileMimeTypes ∧ t ∉ textMimeTypes) →
      getContent env cb = none) := by
  refine ⟨?_, ?_, ?_⟩
  · intro hs
    simp only [getContent]
    rw [if_pos hs]
  · intro hs m hm
    constructor
    · intro hb
      simp only [getContent]
      rw [if_neg (by simp only [hs]; decide)]
      simp only [hm, hb]
      rw [if_neg (by simp)]
    · intro hb
      simp only [getContent]
      rw [if_neg (by simp only [hs]; decide)]
      simp only [hm]
      rw [if_pos (List.length_pos.mpr hb)]
      cases hmd : env.md5Bytes (cb.getBytes m) with
      | none => simp [hmd]
      | some ck => simp [hmd]
  · intro h
    have key : ∀ L : List String, (∀ t ∈ cb.mimeTypes, t ∉ L) →
        L.find? (fun v => cb.mimeTypes.contains v) = none := by
      intro L hL
      rw [List.find?_eq_none]
      intro x hx hc
      have hmem : x ∈ cb.mimeTypes := by simpa using hc
      exact hL x hmem hx
    have hsens : sensitiveMimeTypes.any (fun v => cb.mimeTypes.contains v) = false := by
      rw [List.any_eq_false]
      intro x hx hc
      have hmem : x ∈ cb.mimeTypes := by simpa using hc
      exact (h x hmem).1 hx
    simp only [getContent]
    rw [if_neg (by simp only [hsens]; decide)]
    simp only [key imageMimeTypes (fun t ht => (h t ht).2.1),
      key fileMimeTypes (fun t ht => (h t ht).2.2.1),
      key textMimeTypes (fun t ht => (h t ht).2.2.2)]

/-- Witness for C8: a backend advertising both the sensitive hint and
image/png captures nothing. -/
theorem getContent_priority_witness :
    getContent wEnv wBackendSensitive = none :=
  (getContent_priority wEnv wBackendSensitive).1 (by decide)

lemma pasteContent_state (env : Env) (settings : Settings) (st : ManagerState)
    (c : ClipboardContent) :
    (pasteContent env settings st c).1 =
      if settings.pasteOnCopy = false then
        { st with prev := (copyContent env settings st.prev c).1 }
      else
        { prev := (copyContent env settings st.prev c).1
          pasteSignalId := (st.nextTimerId : Int)
          timers := (if st.pasteSignalId ≥ 0 then
              st.timers.filter (fun i => i ≠ st.pasteSignalId.toNat)
            else st.timers) ++ [st.nextTimerId]
          nextTimerId := st.nextTimerId + 1 } := by
  cases hp : settings.pasteOnCopy with
  | false => simp [pasteContent, hp]
  | true => simp [pasteContent, hp]

/-- C9: at most one pending paste-injection task ever exists — a paste
request preserves the single-pending-source invariant and leaves at most
one scheduled source — and two paste requests within the scheduling delay
schedule consecutive source ids of which only the second still fires, so
the pair produces exactly one keystroke sequence. -/
theorem paste_timer_single_pending (env : Env) (settings : Settings)
    (st : ManagerState) (c1 c2 : ClipboardContent) (terminal : Bool)
    (hok : timersOK st) :
    (timersOK (pasteContent env settings st c1).1 ∧
      (pasteContent env settings st c1).1.timers.length ≤ 1) ∧
    (settings.pasteOnCopy = true →
      (fireTimers
          (pasteContent env settings (pasteContent env settings st c1).1 c2).1
          terminal [st.nextTimerId, st.nextTimerId + 1]).2 =
        pasteKeySequence terminal) := by
  have hT : (if st.pasteSignalId ≥ 0 then
      st.timers.filter (fun i => i ≠ st.pasteSignalId.toNat)
    else st.timers) = [] := by
    rcases hok with ⟨hneg, htim⟩ | ⟨hpos, htim⟩
    · rw [if_neg (by omega), htim]
    · rw [if_pos hpos, htim]
      simp
  cases hp : settings.pasteOnCopy with
  | false =>
    refine ⟨⟨?_, ?_⟩, ?_⟩
    · rw [pasteContent_state, if_pos hp]
      exact hok
    · rw [pasteContent_state, if_pos hp]
      rcases hok with ⟨-, htim⟩ | ⟨-, htim⟩ <;> simp [htim]
    · intro hpc
      exact Bool.noConfusion hpc
  | true =>
    have h1 : (pasteContent env settings st c1).1 =
        { prev := (copyContent env settings st.prev c1).1
          pasteSignalId := (st.nextTimerId : Int)
          timers := [st.nextTimerId]
          nextTimerId := st.nextTimerId + 1 } := by
      rw [pasteContent_state, if_neg (by simp [hp]), hT]
      simp
    refine ⟨⟨?_, ?_⟩, ?_⟩
    · rw [h1]
      right
      refine ⟨by positivity, ?_⟩
      simp
    · rw [h1]
      simp
    · intro _
      have h2 : (pasteContent env settings (pasteContent env settings st c1).1 c2).1 =
          { prev := (copyContent env settings
              (pasteContent env settings st c1).1.prev c2).1
            pasteSignalId := ((st.nextTimerId + 1 : Nat) : Int)
            timers := [st.nextTimerId + 1]
            nextTimerId := st.nextTimerId + 2 } := by
        rw [pasteContent_state, if_neg (by simp [hp])]
        rw [h1]
        simp [List.filter]
      rw [h2]
      have hc1 : ([st.nextTimerId + 1] : List Nat).contains st.nextTimerId = false := by
        simp
      have hc2 : ([st.nextTimerId + 1] : List Nat).contains (st.nextTimerId + 1) = true := by
        simp
      simp only [fireTimers, fireTimer]
      rw [if_neg (by simp [hc1]), if_pos (by simp [hc2])]
      simp [fireTimers]

/-- Witness for C9: from the idle state, two paste requests with
paste-on-copy enabled schedule sources 0 and 1 and firing both injects
exactly one Ctrl+v sequence. -/
theorem paste_timer_single_pending_witness :
    (fireTimers
        (pasteContent wEnv pasteSettings
          (pasteContent wEnv pasteSettings idleState (.text "a")).1 (.text "b")).1
        false [0, 1]).2 = pasteKeySequence false :=
  (paste_timer_single_pending wEnv pasteSettings idleState (.text "a") (.text "b")
    false (Or.inl ⟨by decide, rfl⟩)).2 rfl

end Copyous
